import Mathlib

set_option linter.unusedSectionVars false

set_option linter.unnecessarySeqFocus false

/-!
Verification of the contact-wrench model of pymanoid (`src/pymanoid/contact.py`
and `src/pymanoid/polygons.py`).

The Python source computes with numpy floating-point arrays; we embed it
shallowly over an arbitrary linear ordered field `K` (instantiated with `ℝ` in
every theorem).  The constant `sqrt(2)` used by the friction-cone code is
threaded through as an explicit parameter `s2`; every theorem instantiates it
with `Real.sqrt 2`.

3-vectors, 3x3 matrices, 6-vectors (wrenches: force and moment parts) and
6x6 matrices (four 3x3 blocks) are explicit records so that every arithmetic
step of the source is visible in the definitions.
-/

section LinAlg

variable {K : Type} [LinearOrderedField K]

/-- A 3-vector (numpy `array` of shape (3,)). -/
@[ext] structure V3 (K : Type) where
  x : K
  y : K
  z : K

/-- A 3x3 matrix, rows `(a b c), (d e f), (g h i)`. -/
@[ext] structure M3 (K : Type) where
  a : K
  b : K
  c : K
  d : K
  e : K
  f : K
  g : K
  h : K
  i : K

/-- A 6-vector wrench: force part then moment part, as in the source where
`wrench[0:3]` is the force and `wrench[3:6]` the moment. -/
@[ext] structure V6 (K : Type) where
  force : V3 K
  moment : V3 K

/-- A 6x6 matrix given by its four 3x3 blocks `[[A, B], [C, D]]`. -/
@[ext] structure M66 (K : Type) where
  A : M3 K
  B : M3 K
  C : M3 K
  D : M3 K

instance : Add (V3 K) := ⟨fun u v => ⟨u.x + v.x, u.y + v.y, u.z + v.z⟩⟩

instance : Sub (V3 K) := ⟨fun u v => ⟨u.x - v.x, u.y - v.y, u.z - v.z⟩⟩

instance : Zero (V3 K) := ⟨⟨0, 0, 0⟩⟩

instance : Add (V6 K) := ⟨fun u v => ⟨u.force + v.force, u.moment + v.moment⟩⟩

instance : Zero (V6 K) := ⟨⟨0, 0⟩⟩

/-- Dot product of 3-vectors. -/
def dot3 (u v : V3 K) : K := u.x * v.x + u.y * v.y + u.z * v.z

/-- Dot product of 6-vectors. -/
def dot6 (u v : V6 K) : K := dot3 u.force v.force + dot3 u.moment v.moment

/-- Cross product of 3-vectors (numpy `cross`). -/
def cross3 (u v : V3 K) : V3 K :=
  ⟨u.y * v.z - u.z * v.y, u.z * v.x - u.x * v.z, u.x * v.y - u.y * v.x⟩

/-- Matrix-vector product. -/
def M3.mulVec (M : M3 K) (v : V3 K) : V3 K :=
  ⟨M.a * v.x + M.b * v.y + M.c * v.z,
   M.d * v.x + M.e * v.y + M.f * v.z,
   M.g * v.x + M.h * v.y + M.i * v.z⟩

/-- Row-vector times matrix (`r` viewed as a 1x3 row). -/
def vecMul3 (r : V3 K) (M : M3 K) : V3 K :=
  ⟨r.x * M.a + r.y * M.d + r.z * M.g,
   r.x * M.b + r.y * M.e + r.z * M.h,
   r.x * M.c + r.y * M.f + r.z * M.i⟩

/-- Matrix product. -/
def M3.mul (M N : M3 K) : M3 K :=
  ⟨M.a * N.a + M.b * N.d + M.c * N.g,
   M.a * N.b + M.b * N.e + M.c * N.h,
   M.a * N.c + M.b * N.f + M.c * N.i,
   M.d * N.a + M.e * N.d + M.f * N.g,
   M.d * N.b + M.e * N.e + M.f * N.h,
   M.d * N.c + M.e * N.f + M.f * N.i,
   M.g * N.a + M.h * N.d + M.i * N.g,
   M.g * N.b + M.h * N.e + M.i * N.h,
   M.g * N.c + M.h * N.f + M.i * N.i⟩

/-- Transpose. -/
def M3.transpose (M : M3 K) : M3 K :=
  ⟨M.a, M.d, M.g, M.b, M.e, M.h, M.c, M.f, M.i⟩

/-- Entrywise (Hadamard) product: this is what numpy `*` computes on two
`ndarray`s, as opposed to the matrix product `dot`. -/
def M3.hadamard (M N : M3 K) : M3 K :=
  ⟨M.a * N.a, M.b * N.b, M.c * N.c,
   M.d * N.d, M.e * N.e, M.f * N.f,
   M.g * N.g, M.h * N.h, M.i * N.i⟩

/-- Entrywise negation. -/
def M3.neg (M : M3 K) : M3 K :=
  ⟨-M.a, -M.b, -M.c, -M.d, -M.e, -M.f, -M.g, -M.h, -M.i⟩

/-- Identity matrix (numpy `eye(3)`). -/
def M3.one : M3 K := ⟨1, 0, 0, 0, 1, 0, 0, 0, 1⟩

/-- Zero matrix (numpy `zeros((3, 3))`). -/
def M3.zero : M3 K := ⟨0, 0, 0, 0, 0, 0, 0, 0, 0⟩

/-- Block-matrix-vector product for a 6x6 matrix in 3x3 blocks. -/
def M66.mulVec (M : M66 K) (w : V6 K) : V6 K :=
  ⟨M.A.mulVec w.force + M.B.mulVec w.moment,
   M.C.mulVec w.force + M.D.mulVec w.moment⟩

/-- Row 6-vector times 6x6 block matrix. -/
def vecMul6 (r : V6 K) (M : M66 K) : V6 K :=
  ⟨vecMul3 r.force M.A + vecMul3 r.moment M.C,
   vecMul3 r.force M.B + vecMul3 r.moment M.D⟩

/-- Modelled from the spec: `crossmat` from `pymanoid.transformations` (the
module is not part of the sources under study), "the cross-product
(skew-symmetric) matrix", i.e. the matrix `S` with `S u = v x u`. -/
def crossmat (v : V3 K) : M3 K :=
  ⟨0, -v.z, v.y, v.z, 0, -v.x, -v.y, v.x, 0⟩

/-- `scipy.linalg.block_diag` on two 3x3 blocks (used by `set_wrench` and for
the QP weight matrix). -/
def blockDiag (M N : M3 K) : M66 K := ⟨M, M3.zero, M3.zero, N⟩

end LinAlg

section ContactModel

variable {K : Type} [LinearOrderedField K]

/-- Rectangular contact surface (`Contact` in `contact.py`).  The `Box`
superclass (GUI body, excluded collaborator) only contributes the pose, kept
here as the rotation matrix `R` and position `p`; `link`, colors and the
display slab are GUI state with no effect on the claims and are omitted. -/
structure Contact (K : Type) where
  shape : K × K
  R : M3 K
  p : V3 K
  friction : K
  max_pressure : Option K
  is_managed : Bool
  wrench : Option (V6 K)

namespace Contact

/-- `Contact.__init__`: stores shape, pose and friction, and sets
`is_managed = False`, `max_pressure = None`, `wrench = None`. -/
def init (shape : K × K) (R : M3 K) (p : V3 K) (friction : K) : Contact K :=
  ⟨shape, R, p, friction, none, false, none⟩

/-- `Contact.copy`: builds a fresh `Contact` with the same shape, pose and
friction, then copies over `max_pressure` and `wrench`.  Note that the
`is_managed` flag is not copied: it keeps the constructor's value. -/
def copy (c : Contact K) : Contact K :=
  let cc : Contact K := init c.shape c.R c.p c.friction
  { cc with max_pressure := c.max_pressure, wrench := c.wrench }

/-- `Contact.set_wrench`: switches the contact to managed mode and stores
`block_diag(R, R) . wrench` (the wrench argument is given in the contact
frame). -/
def set_wrench (c : Contact K) (w : V6 K) : Contact K :=
  { c with is_managed := true,
           wrench := some ((blockDiag c.R c.R).mulVec w) }

/-- `Contact.unset_wrench`: returns the contact to supporting mode and clears
the stored wrench. -/
def unset_wrench (c : Contact K) : Contact K :=
  { c with is_managed := false, wrench := none }

/-- `Contact.compute_grasp_matrix(p)`.  The source first fills the array with
identity diagonal blocks and the skew block `[[0,-z,y],[z,0,-x],[-y,x,0]]` of
`d = self.p - p` in the lower left, then overwrites the diagonal blocks with
`R.T` and assigns `graspMatrix[3:, :3] = -self.R.T * graspMatrix[3:, :3]`.
All operands are numpy `ndarray`s, so `*` there is the entrywise (Hadamard)
product of `-R.T` with the skew block, not a matrix product. -/
def compute_grasp_matrix (c : Contact K) (p : V3 K) : M66 K :=
  let d : V3 K := c.p - p
  let skewBlock : M3 K := ⟨0, -d.z, d.y, d.z, 0, -d.x, -d.y, d.x, 0⟩
  { A := c.R.transpose,
    B := M3.zero,
    C := M3.hadamard (M3.neg c.R.transpose) skewBlock,
    D := c.R.transpose }

/-- `Contact.get_scaled_contact_area(scale)`: the four corners
`T . (+-X, +-Y, 0, 1)` of the scaled rectangle, in the source's order
`(+X,+Y), (+X,-Y), (-X,-Y), (-X,+Y)`.  The homogeneous transform `T` acts as
`v = p + R . (x, y, 0)`. -/
def get_scaled_contact_area (c : Contact K) (scale : K) : List (V3 K) :=
  let X := scale * c.shape.1
  let Y := scale * c.shape.2
  [c.p + c.R.mulVec ⟨X, Y, 0⟩,
   c.p + c.R.mulVec ⟨X, -Y, 0⟩,
   c.p + c.R.mulVec ⟨-X, -Y, 0⟩,
   c.p + c.R.mulVec ⟨-X, Y, 0⟩]

/-- `Contact.vertices`: the contact area at scale 1. -/
def vertices (c : Contact K) : List (V3 K) :=
  c.get_scaled_contact_area 1

/-- `Contact.wrench_at(point)`: `None` when no wrench is stored, otherwise
`X_world_point . wrench` with
`X_world_point = vstack([hstack([eye(3), eye(3)]), hstack([crossmat(point), eye(3)])])`. -/
def wrench_at (c : Contact K) (point : V3 K) : Option (V6 K) :=
  c.wrench.map (fun w =>
    (M66.mulVec ⟨M3.one, M3.one, crossmat point, M3.one⟩ w))

/-- `Contact.force_rays`: the four rays `R . (+-mu, +-mu, 1)` of the
linearized friction cone, with `mu = friction / sqrt(2)` (`s2` stands for
`sqrt(2)`). -/
def force_rays (s2 : K) (c : Contact K) : List (V3 K) :=
  let mu := c.friction / s2
  [c.R.mulVec ⟨mu, mu, 1⟩,
   c.R.mulVec ⟨mu, -mu, 1⟩,
   c.R.mulVec ⟨-mu, mu, 1⟩,
   c.R.mulVec ⟨-mu, -mu, 1⟩]

/-- `Contact.force_span`: `array(self.force_rays).T`, the 3x4 matrix whose
columns are the four force rays; represented as the list of its columns. -/
def force_span (s2 : K) (c : Contact K) : List (V3 K) :=
  c.force_rays s2

/-- `Contact.force_inequalities`: `hrep_local . R.T` where `hrep_local` has
rows `(-1,0,-mu), (+1,0,-mu), (0,-1,-mu), (0,+1,-mu)`; represented as the list
of rows of the product. -/
def force_inequalities (s2 : K) (c : Contact K) : List (V3 K) :=
  let mu := c.friction / s2
  [vecMul3 ⟨-1, 0, -mu⟩ c.R.transpose,
   vecMul3 ⟨1, 0, -mu⟩ c.R.transpose,
   vecMul3 ⟨0, -1, -mu⟩ c.R.transpose,
   vecMul3 ⟨0, 1, -mu⟩ c.R.transpose]

/-- Rows of the `local_cone` 16x6 array of `Contact.wrench_inequalities`,
with `X, Y = self.shape` and `mu = friction / sqrt(2)`. -/
def local_cone (s2 : K) (c : Contact K) : List (V6 K) :=
  let X := c.shape.1
  let Y := c.shape.2
  let mu := c.friction / s2
  [⟨⟨-1, 0, -mu⟩, ⟨0, 0, 0⟩⟩,
   ⟨⟨1, 0, -mu⟩, ⟨0, 0, 0⟩⟩,
   ⟨⟨0, -1, -mu⟩, ⟨0, 0, 0⟩⟩,
   ⟨⟨0, 1, -mu⟩, ⟨0, 0, 0⟩⟩,
   ⟨⟨0, 0, -Y⟩, ⟨-1, 0, 0⟩⟩,
   ⟨⟨0, 0, -Y⟩, ⟨1, 0, 0⟩⟩,
   ⟨⟨0, 0, -X⟩, ⟨0, -1, 0⟩⟩,
   ⟨⟨0, 0, -X⟩, ⟨0, 1, 0⟩⟩,
   ⟨⟨-Y, -X, -(X + Y) * mu⟩, ⟨mu, mu, -1⟩⟩,
   ⟨⟨-Y, X, -(X + Y) * mu⟩, ⟨mu, -mu, -1⟩⟩,
   ⟨⟨Y, -X, -(X + Y) * mu⟩, ⟨-mu, mu, -1⟩⟩,
   ⟨⟨Y, X, -(X + Y) * mu⟩, ⟨-mu, -mu, -1⟩⟩,
   ⟨⟨Y, X, -(X + Y) * mu⟩, ⟨mu, mu, 1⟩⟩,
   ⟨⟨Y, -X, -(X + Y) * mu⟩, ⟨mu, -mu, 1⟩⟩,
   ⟨⟨-Y, X, -(X + Y) * mu⟩, ⟨-mu, mu, 1⟩⟩,
   ⟨⟨-Y, -X, -(X + Y) * mu⟩, ⟨-mu, -mu, 1⟩⟩]

/-- `Contact.wrench_inequalities`:
`np.matrix(local_cone) * self.compute_grasp_matrix([0, 0, 0])` (here `*` on
`np.matrix` is the matrix product); represented as the list of rows. -/
def wrench_inequalities (s2 : K) (c : Contact K) : List (V6 K) :=
  (c.local_cone s2).map
    (fun r => vecMul6 r (c.compute_grasp_matrix ⟨0, 0, 0⟩))

/-- `Contact.wrench_span`: `hstack` over the four vertices `v` of
`vstack([eye(3), crossmat(v - self.p)]) . force_span`; represented as the list
of the 16 columns `(f, crossmat(v - p) . f)`. -/
def wrench_span (s2 : K) (c : Contact K) : List (V6 K) :=
  (c.vertices.map (fun v =>
    (c.force_span s2).map (fun f =>
      (⟨f, (crossmat (v - c.p)).mulVec f⟩ : V6 K)))).flatten

end Contact

end ContactModel

section ContactSetModel

variable {K : Type} [LinearOrderedField K]

/-- `ContactSet` from `contact.py`: the `contacts` list plus the attribute
`nb_contacts` assigned once in `__init__` (`self.nb_contacts = len(self.contacts)`). -/
structure ContactSet (K : Type) where
  contacts : List (Contact K)
  nb_contacts : Nat

namespace ContactSet

/-- `ContactSet.__init__(contacts)`: stores the list and assigns the
`nb_contacts` attribute to its current length. -/
def init (contacts : List (Contact K)) : ContactSet K :=
  ⟨contacts, contacts.length⟩

/-- Python mutation `S.contacts.append(c)` of a set built by `__init__`: the
list object grows in place, while the `nb_contacts` attribute set in
`__init__` is not touched by the mutation. -/
def appendContact (S : ContactSet K) (c : Contact K) : ContactSet K :=
  ⟨S.contacts ++ [c], S.nb_contacts⟩

/-- Python mutation `S.contacts.pop()` (removing the last contact): the list
shrinks in place, while the `nb_contacts` attribute is not touched. -/
def removeLastContact (S : ContactSet K) : ContactSet K :=
  ⟨S.contacts.dropLast, S.nb_contacts⟩

/-- `ContactSet.supporting_contacts`: contacts with `is_managed` false. -/
def supporting_contacts (S : ContactSet K) : List (Contact K) :=
  S.contacts.filter (fun c => !c.is_managed)

/-- Accumulation of `ext_wrench` in `ContactSet.find_supporting_wrenches`:
starting from `zeros(6)`, each contact with `is_managed` true and a stored
wrench adds `contact.wrench_at(point)`. -/
def ext_wrench (S : ContactSet K) (point : V3 K) : V6 K :=
  S.contacts.foldl
    (fun acc c =>
      if c.is_managed && c.wrench.isSome then acc + (c.wrench_at point).getD 0
      else acc)
    0

/-- Data of the quadratic program `min ½xᵀPx + qᵀx  s.t. Gx ≤ h, Ax = b`
passed to `solve_qp`.  `P` is block diagonal with one 6x6 block per
supporting contact, `G` stacks their `wrench_inequalities` rows, and `A` is
the horizontal concatenation of their grasp matrices, kept as the list of
6x6 blocks. -/
structure QP (K : Type) where
  P : List (M66 K)
  q : List K
  G : List (List (V6 K))
  h : List K
  A : List (M66 K)
  b : V6 K

/-- Diagonal 3x3 matrix (numpy `diag`). -/
def diag3 (u v w : K) : M3 K := ⟨u, 0, 0, 0, v, 0, 0, 0, w⟩

/-- Construction of the QP solved by `ContactSet.find_supporting_wrenches`:
`epsilon = min(friction_weight, cop_weight, yaw_weight) * 1e-3`,
`W_f = diag(fw, fw, eps)`, `W_tau = diag(cw, cw, yw)`,
`P = block_diag(R W_f Rᵀ, R W_tau Rᵀ)` per supporting contact, `q = 0`,
`G = block_diag` of the supporting contacts' `wrench_inequalities`, `h = 0`,
`A = hstack` of the supporting contacts' grasp matrices at `point`, and
`b = wrench + ext_wrench`. -/
def buildQP (s2 : K) (S : ContactSet K) (wrench : V6 K) (point : V3 K)
    (friction_weight cop_weight yaw_weight : K) : QP K :=
  let eps := min friction_weight (min cop_weight yaw_weight) * (1 / 1000)
  let Wf := diag3 friction_weight friction_weight eps
  let Wtau := diag3 cop_weight cop_weight yaw_weight
  { P := (S.supporting_contacts).map (fun c =>
      blockDiag (c.R.mul (Wf.mul c.R.transpose))
        (c.R.mul (Wtau.mul c.R.transpose))),
    q := List.replicate (6 * S.supporting_contacts.length) 0,
    G := (S.supporting_contacts).map (fun c => c.wrench_inequalities s2),
    h := List.replicate
      (((S.supporting_contacts).map (fun c => (c.wrench_inequalities s2).length)).sum) 0,
    A := (S.supporting_contacts).map (fun c => c.compute_grasp_matrix point),
    b := wrench + S.ext_wrench point }

/-- Numpy slice `w_all[6 * i : 6 * (i + 1)]` of a flat solution vector; as in
Python, a slice past the end of the array is silently clamped (possibly
empty). -/
def slice6 (i : Nat) (xs : List K) : List K :=
  (xs.drop (6 * i)).take 6

/-- Loop `[(contact, w_all[6 * i : 6 * (i + 1)]) for i, contact in
enumerate(self.contacts)]`, starting the index at `k`. -/
def enumSlices (w_all : List K) : Nat → List (Contact K) → List (Contact K × List K)
  | _, [] => []
  | k, c :: cs => (c, slice6 k w_all) :: enumSlices w_all (k + 1) cs

/-- `ContactSet.find_supporting_wrenches(wrench, point, ...)`: builds the QP,
calls the (external, here abstract) `solve_qp`, returns `None` when the
solver does, and otherwise pairs every contact of `self.contacts` with its
6-slice of the solution vector. -/
def find_supporting_wrenches (s2 : K) (S : ContactSet K) (wrench : V6 K)
    (point : V3 K) (friction_weight cop_weight yaw_weight : K)
    (solver : QP K → Option (List K)) :
    Option (List (Contact K × List K)) :=
  match solver (S.buildQP s2 wrench point friction_weight cop_weight yaw_weight) with
  | none => none
  | some w_all => some (enumSlices w_all 0 S.contacts)

/-- Value of the equality constraint `A x = b` of a QP whose matrix `A` is a
horizontal concatenation of 6x6 blocks applied to the flat vector `x`:
each block consumes the next 6 entries of `x`. -/
def hstackMulVec : List (M66 K) → List K → V6 K
  | [], _ => 0
  | M :: Ms, x => M.mulVec (toV6 (x.take 6)) + hstackMulVec Ms (x.drop 6)
where
  toV6 (xs : List K) : V6 K :=
    ⟨⟨xs.getD 0 0, xs.getD 1 0, xs.getD 2 0⟩,
     ⟨xs.getD 3 0, xs.getD 4 0, xs.getD 5 0⟩⟩

/-- The equality constraint `A x == b` of a QP, on a flat variable vector. -/
def eqConstraint (qp : QP K) (x : List K) : Prop :=
  hstackMulVec qp.A x = qp.b

end ContactSet

/-- `ContactFeed` from `contact.py`: contact list, cyclic flag and the cursor
`next_contact_id` (persistence and GUI methods are out of scope). -/
structure ContactFeed (K : Type) where
  contacts : List (Contact K)
  cyclic : Bool
  next_contact_id : Nat

namespace ContactFeed

/-- `ContactFeed.pop()`: saves the cursor in `i`, increments the cursor; if
the incremented cursor runs past the list, returns `None` in non-cyclic mode
and otherwise resets the cursor to 0; finally returns `self.contacts[i]`
(modelled with `List.get?`, Python indexing out of range raising instead). -/
def pop (fd : ContactFeed K) : Option (Contact K) × ContactFeed K :=
  let i := fd.next_contact_id
  let nid := i + 1
  if nid ≥ fd.contacts.length then
    if !fd.cyclic then (none, { fd with next_contact_id := nid })
    else (fd.contacts.get? i, { fd with next_contact_id := 0 })
  else (fd.contacts.get? i, { fd with next_contact_id := nid })

end ContactFeed

end ContactSetModel

section PolygonModel

variable {K : Type} [LinearOrderedField K]

/-- A 2-vector (rows of the inequality matrix `B` in `polygons.py`). -/
@[ext] structure V2 (K : Type) where
  x : K
  y : K

instance : Add (V2 K) := ⟨fun u v => ⟨u.x + v.x, u.y + v.y⟩⟩

/-- Dot product of 2-vectors. -/
def dot2 (u v : V2 K) : K := u.x * v.x + u.y * v.y

/-- The test `all(c > 0)` from `polygons.py`. -/
def allPos (c : List K) : Prop := ∀ a ∈ c, 0 < a

instance (c : List K) : Decidable (allPos c) :=
  List.decidableBAll _ c

/-- Python `min(c)` on the offset vector (0 on an empty list, where Python
would raise). -/
def listMin : List K → K
  | [] => 0
  | a :: rest => rest.foldl min a

/-- `compute_polygon_hull(B, c)` from `polygons.py`.  The inequality matrix is
the list `B` of its rows, paired with the offset list `c`.  The external
Chebyshev-center routine (`polyhedra.compute_chebyshev_center`) and the inner
polar-hull routine `__compute_polygon_hull` (which delegates to scipy
`ConvexHull`) enter as abstract parameters `cheb` and `inner`.  When the
origin is not interior, the system is translated by the Chebyshev center and
the output vertices are translated back; when some translated offset is still
non-positive the source raises `Exception("Polygon is empty (min. dist. to
edge ...)")`, modelled as `Except.error` carrying `min(c)`. -/
def compute_polygon_hull (cheb : List (V2 K) → List K → V2 K)
    (inner : List (V2 K) → List K → List (V2 K))
    (B : List (V2 K)) (c : List K) : Except K (List (V2 K)) :=
  if allPos c then Except.ok (inner B c)
  else
    let x := cheb B c
    let c2 := List.zipWith (fun (bi : V2 K) ci => ci - dot2 bi x) B c
    if allPos c2 then Except.ok ((inner B c2).map (fun v => v + x))
    else Except.error (listMin c2)

end PolygonModel

section SpecSide

variable {K : Type} [LinearOrderedField K]

/-- The grasp matrix as the spec sentence behind C1 states it:
`[[R^T, 0], [-R^T . skew(d), R^T]]` with `d = contact_point - p` and a matrix
product of `-R^T` with the skew matrix in the lower-left block. -/
def graspMatrixSpec (c : Contact K) (p : V3 K) : M66 K :=
  let d : V3 K := c.p - p
  { A := c.R.transpose,
    B := M3.zero,
    C := M3.neg (c.R.transpose.mul (crossmat d)),
    D := c.R.transpose }

/-- Wrench transport as the spec sentence behind C4 states it: the force part
is unchanged and the moment part gains `(self.p - point) x force`. -/
def wrenchAtSpec (c : Contact K) (point : V3 K) : Option (V6 K) :=
  c.wrench.map (fun w => ⟨w.force, w.moment + cross3 (c.p - point) w.force⟩)

/-- Invariant stated by the spec for C3: the stored wrench is non-null iff
the contact is in managed mode. -/
def wrenchModeInv (c : Contact K) : Prop :=
  c.wrench ≠ none ↔ c.is_managed = true

/-- Sum of a list of wrenches. -/
def sumV6 (l : List (V6 K)) : V6 K := l.foldr (fun a b => a + b) 0

end SpecSide

section ConcreteObjects

variable {K : Type} [LinearOrderedField K]

/-- Rotation by 90 degrees about the z axis (a genuine rotation matrix). -/
def rotz90 : M3 K := ⟨0, -1, 0, 1, 0, 0, 0, 0, 1⟩

/-- Supporting contact with identity orientation at the origin. -/
def cSupp : Contact K := Contact.init (1, 1) M3.one ⟨0, 0, 0⟩ 0

/-- Managed contact at the origin, carrying the pure normal force
`(0, 0, 1, 0, 0, 0)` set through `set_wrench`. -/
def cMng : Contact K :=
  (Contact.init (1, 1) M3.one ⟨0, 0, 0⟩ 0).set_wrench ⟨⟨0, 0, 1⟩, ⟨0, 0, 0⟩⟩

/-- Contact set with one supporting and one managed contact. -/
def S2set : ContactSet K := ContactSet.init [cSupp, cMng]

/-- Flat candidate solution for the equality constraint of `S2set`. -/
def x2 : List K := [0, 0, 1, 0, 0, 0]

/-- Contact rotated 90 degrees about z and positioned at `(1, 0, 0)`. -/
def cRotX : Contact K := Contact.init (1, 1) rotz90 ⟨1, 0, 0⟩ 0

/-- Managed contact at the origin with identity orientation carrying the pure
moment `(0, 0, 0, 1, 0, 0)` set through `set_wrench`. -/
def c4managed : Contact K :=
  (Contact.init (1, 1) M3.one ⟨0, 0, 0⟩ 0).set_wrench ⟨⟨0, 0, 0⟩, ⟨1, 0, 0⟩⟩

/-- Contact with shape `(1, 1)`, orientation `rotz90`, position `(0, 0, 1)`
and friction coefficient `s2` (instantiated with `sqrt(2)`, so that
`mu = s2 / s2 = 1`). -/
def c6rot (s2 : K) : Contact K := Contact.init (1, 1) rotz90 ⟨0, 0, 1⟩ s2

/-- Concrete QP solution vector of length 6. -/
def l6 : List K := [1, 2, 3, 4, 5, 6]

end ConcreteObjects

section HelperLemmas

variable {K : Type} [LinearOrderedField K]

@[simp] lemma V3_add_def (u v : V3 K) :
    u + v = ⟨u.x + v.x, u.y + v.y, u.z + v.z⟩ := rfl

@[simp] lemma V3_sub_def (u v : V3 K) :
    u - v = ⟨u.x - v.x, u.y - v.y, u.z - v.z⟩ := rfl

@[simp] lemma V3_zero_def : (0 : V3 K) = ⟨0, 0, 0⟩ := rfl

@[simp] lemma V6_add_def (u v : V6 K) :
    u + v = ⟨u.force + v.force, u.moment + v.moment⟩ := rfl

@[simp] lemma V6_zero_def : (0 : V6 K) = ⟨⟨0, 0, 0⟩, ⟨0, 0, 0⟩⟩ := rfl

@[simp] lemma V2_add_def (u v : V2 K) : u + v = ⟨u.x + v.x, u.y + v.y⟩ := rfl

@[simp] lemma V6.add_zero (v : V6 K) : v + 0 = v := by ext <;> simp

@[simp] lemma V6.zero_add (v : V6 K) : 0 + v = v := by ext <;> simp

lemma V6.add_assoc (u v w : V6 K) : u + v + w = u + (v + w) := by
  ext <;> simp <;> ring

@[simp] lemma V6.force_zero : (0 : V6 K).force = ⟨0, 0, 0⟩ := rfl

@[simp] lemma V6.moment_zero : (0 : V6 K).moment = ⟨0, 0, 0⟩ := rfl

lemma dot3_vecMul3 (r : V3 K) (M : M3 K) (v : V3 K) :
    dot3 (vecMul3 r M) v = dot3 r (M.mulVec v) := by
  simp only [dot3, vecMul3, M3.mulVec]
  ring

lemma M3.mulVec_mulVec (M N : M3 K) (v : V3 K) :
    M.mulVec (N.mulVec v) = (M.mul N).mulVec v := by
  ext <;> simp [M3.mulVec, M3.mul] <;> ring

lemma M3.one_mulVec (v : V3 K) : (M3.one : M3 K).mulVec v = v := by
  ext <;> simp [M3.mulVec, M3.one]

lemma sumV6_nil : sumV6 ([] : List (V6 K)) = 0 := rfl

lemma sumV6_cons (a : V6 K) (l : List (V6 K)) : sumV6 (a :: l) = a + sumV6 l := rfl

lemma foldl_ext_wrench (point : V3 K) (l : List (Contact K)) (acc : V6 K) :
    l.foldl
      (fun a c =>
        if c.is_managed && c.wrench.isSome then a + (c.wrench_at point).getD 0
        else a)
      acc =
    acc + sumV6 ((l.filter (fun c => c.is_managed && c.wrench.isSome)).map
      (fun c => (c.wrench_at point).getD 0)) := by
  induction l generalizing acc with
  | nil =>
    simp only [List.foldl_nil, List.filter_nil, List.map_nil, sumV6_nil,
      V6.add_zero]
  | cons c cs ih =>
    simp only [List.foldl_cons, List.filter_cons]
    by_cases h : (c.is_managed && c.wrench.isSome) = true
    · rw [if_pos h, if_pos h, ih, List.map_cons, sumV6_cons, ← V6.add_assoc]
    · rw [if_neg h, if_neg h, ih]

lemma enumSlices_length (w : List K) (k : Nat) (l : List (Contact K)) :
    (ContactSet.enumSlices w k l).length = l.length := by
  induction l generalizing k with
  | nil => rfl
  | cons c cs ih => simp [ContactSet.enumSlices, ih]

lemma enumSlices_get (w : List K) (k : Nat) (l : List (Contact K)) (i : Nat) :
    (ContactSet.enumSlices w k l).get? i =
      (l.get? i).map (fun c => (c, ContactSet.slice6 (k + i) w)) := by
  induction l generalizing k i with
  | nil => rfl
  | cons c cs ih =>
    cases i with
    | zero => rfl
    | succ j =>
      have hk : k + (j + 1) = (k + 1) + j := by omega
      rw [hk]
      exact ih (k + 1) j

end HelperLemmas

section ClaimC3

/-- C3, counterexample: a contact made managed by `set_wrench` and then
copied yields a copy whose `wrench` is non-null while `is_managed` is false,
so the claimed invariant "wrench non-null iff managed" is violated by `copy`. -/
theorem C3_counterexample :
    ¬ wrenchModeInv
        (((Contact.init ((1 : ℝ), 1) M3.one ⟨0, 0, 0⟩ 0).set_wrench
            ⟨⟨0, 0, 1⟩, ⟨0, 0, 0⟩⟩).copy) := by
  simp [wrenchModeInv, Contact.init, Contact.set_wrench, Contact.copy]

/-- C3, amended: construction, `set_wrench` and `unset_wrench` all establish
the invariant "wrench non-null iff managed", but `copy` carries the wrench
over while resetting the mode flag to supporting, so a copy satisfies the
invariant only when the source carries no wrench. -/
theorem C3_amended :
    (∀ (shape : ℝ × ℝ) (R : M3 ℝ) (p : V3 ℝ) (friction : ℝ),
        wrenchModeInv (Contact.init shape R p friction)) ∧
    (∀ (c : Contact ℝ) (w : V6 ℝ), wrenchModeInv (c.set_wrench w)) ∧
    (∀ c : Contact ℝ, wrenchModeInv c.unset_wrench) ∧
    (∀ c : Contact ℝ, c.copy.is_managed = false ∧ c.copy.wrench = c.wrench) := by
  refine ⟨fun shape R p friction => ?_, fun c w => ?_, fun c => ?_,
    fun c => ⟨rfl, rfl⟩⟩ <;>
  simp [wrenchModeInv, Contact.init, Contact.set_wrench, Contact.unset_wrench]

end ClaimC3

section ClaimC5

/-- C5, counterexample: appending a contact to the list of a two-line
`ContactSet` leaves the `nb_contacts` attribute at its construction-time
value 1 while the contained sequence now has length 2. -/
theorem C5_counterexample :
    ((ContactSet.init [(cSupp : Contact ℝ)]).appendContact cSupp).nb_contacts ≠
      ((ContactSet.init [(cSupp : Contact ℝ)]).appendContact
        cSupp).contacts.length := by
  simp [ContactSet.init, ContactSet.appendContact]

/-- C5, amended: `nb_contacts` equals the length of the contact list at
construction time, but it is a cached attribute assigned once in `__init__`:
mutating the contact list afterwards (append or remove) changes the list
length without updating `nb_contacts`, so the two can go out of sync. -/
theorem C5_amended :
    (∀ cs : List (Contact ℝ), (ContactSet.init cs).nb_contacts = cs.length) ∧
    (∀ (S : ContactSet ℝ) (c : Contact ℝ),
        (S.appendContact c).nb_contacts = S.nb_contacts ∧
        (S.appendContact c).contacts.length = S.contacts.length + 1) ∧
    (∀ S : ContactSet ℝ,
        S.removeLastContact.nb_contacts = S.nb_contacts ∧
        S.removeLastContact.contacts.length = S.contacts.length - 1) := by
  refine ⟨fun cs => rfl, fun S c => ⟨rfl, ?_⟩, fun S => ⟨rfl, ?_⟩⟩
  · simp [ContactSet.appendContact]
  · simp [ContactSet.removeLastContact]

end ClaimC5

section ClaimC10

/-- C10: for a non-empty feed whose cursor sits at the last index,
`pop` in non-cyclic mode returns `None` and leaves the cursor one past the
end (and from any past-the-end cursor every further non-cyclic `pop` again
returns `None`, so the final contact is never produced), while in cyclic mode
the same call returns the final contact and resets the cursor to 0. -/
theorem C10_pop_at_last_index (fd : ContactFeed ℝ) (hne : fd.contacts ≠ [])
    (hid : fd.next_contact_id = fd.contacts.length - 1) :
    (fd.cyclic = false →
      fd.pop.1 = none ∧ fd.pop.2.next_contact_id = fd.contacts.length) ∧
    (fd.cyclic = true →
      fd.pop.1 = fd.contacts.get? (fd.contacts.length - 1) ∧
      fd.pop.1.isSome = true ∧
      fd.pop.2.next_contact_id = 0) ∧
    (∀ g : ContactFeed ℝ, g.cyclic = false →
      g.contacts.length ≤ g.next_contact_id →
      g.pop.1 = none ∧ g.pop.2.next_contact_id = g.next_contact_id + 1) := by
  have hlen : 1 ≤ fd.contacts.length := List.length_pos.mpr hne
  have hup : fd.next_contact_id + 1 = fd.contacts.length := by omega
  refine ⟨fun hc => ?_, fun hc => ?_, fun g hc hg => ?_⟩
  · simp [ContactFeed.pop, hup, hc]
  · have hlt : fd.contacts.length - 1 < fd.contacts.length := by omega
    have hcond : fd.contacts.length ≤ fd.contacts.length - 1 + 1 := by omega
    simp [ContactFeed.pop, hup, hc, hid, hcond, List.getElem?_eq_getElem hlt]
  · have hge : g.contacts.length ≤ g.next_contact_id + 1 := by omega
    simp [ContactFeed.pop, hc, hge]

/-- Witness for C10 at a concrete one-contact cyclic feed with the cursor at
the last (and only) index. -/
theorem C10_pop_at_last_index_witness :
    (([cSupp] : List (Contact ℝ)) ≠ [] ∧
      (⟨[cSupp], true, 0⟩ : ContactFeed ℝ).next_contact_id =
        (⟨[cSupp], true, 0⟩ : ContactFeed ℝ).contacts.length - 1) ∧
    ((⟨[cSupp], true, 0⟩ : ContactFeed ℝ).pop.1 =
        ([cSupp] : List (Contact ℝ)).get?
          (([cSupp] : List (Contact ℝ)).length - 1) ∧
      (⟨[cSupp], true, 0⟩ : ContactFeed ℝ).pop.1.isSome = true ∧
      (⟨[cSupp], true, 0⟩ : ContactFeed ℝ).pop.2.next_contact_id = 0) :=
  ⟨⟨by simp, by simp⟩,
   (C10_pop_at_last_index ⟨[cSupp], true, 0⟩ (by simp) (by simp)).2.1 rfl⟩

end ClaimC10

section ClaimC1

/-- C1: for the contact `cRotX` (rotation 90 degrees about z, position
`(1, 0, 0)`) and destination point `p = 0`, the lower-left block computed by
`compute_grasp_matrix` is the zero matrix (the numpy `*` takes the entrywise
product of `-R.T` with the skew matrix of `d`), whereas the matrix stated by
the claim has lower-left block `-R^T . skew(d)` (a matrix product) equal to
`[[0,0,1],[0,0,0],[0,-1,0]]`; the two matrices differ. -/
theorem C1_grasp_matrix_entrywise_not_matrix_product :
    ((cRotX : Contact ℝ).compute_grasp_matrix ⟨0, 0, 0⟩).C = M3.zero ∧
    (graspMatrixSpec (cRotX : Contact ℝ) ⟨0, 0, 0⟩).C =
      ⟨0, 0, 1, 0, 0, 0, 0, -1, 0⟩ ∧
    (cRotX : Contact ℝ).compute_grasp_matrix ⟨0, 0, 0⟩ ≠
      graspMatrixSpec (cRotX : Contact ℝ) ⟨0, 0, 0⟩ := by
  refine ⟨?_, ?_, ?_⟩
  · ext <;>
      simp [cRotX, Contact.init, Contact.compute_grasp_matrix, rotz90,
        M3.transpose, M3.neg, M3.hadamard, M3.zero]
  · ext <;>
      simp [cRotX, Contact.init, graspMatrixSpec, rotz90, crossmat,
        M3.transpose, M3.neg, M3.mul]
  · intro hEq
    have hc : ((cRotX : Contact ℝ).compute_grasp_matrix ⟨0, 0, 0⟩).C.c =
        (graspMatrixSpec (cRotX : Contact ℝ) ⟨0, 0, 0⟩).C.c :=
      congrArg (fun M => M.C.c) hEq
    simp [cRotX, Contact.init, Contact.compute_grasp_matrix, graspMatrixSpec,
      rotz90, crossmat, M3.transpose, M3.neg, M3.hadamard, M3.mul,
      M3.zero] at hc

end ClaimC1

section ClaimC4

/-- C4: for the managed contact `c4managed` (identity orientation, position
`0`, stored wrench `(0, 0, 0, 1, 0, 0)`) queried at its own contact point,
`wrench_at` returns `(1, 0, 0, 1, 0, 0)` — the identity top-right block of
`X_world_point` folds the moment into the force — whereas the transport rule
stated by the claim leaves the stored wrench unchanged there (`d = 0`),
giving `(0, 0, 0, 1, 0, 0)`. -/
theorem C4_wrench_at_mixes_moment_into_force :
    (c4managed : Contact ℝ).wrench_at ⟨0, 0, 0⟩ =
      some ⟨⟨1, 0, 0⟩, ⟨1, 0, 0⟩⟩ ∧
    wrenchAtSpec (c4managed : Contact ℝ) ⟨0, 0, 0⟩ =
      some ⟨⟨0, 0, 0⟩, ⟨1, 0, 0⟩⟩ ∧
    (c4managed : Contact ℝ).wrench_at ⟨0, 0, 0⟩ ≠
      wrenchAtSpec (c4managed : Contact ℝ) ⟨0, 0, 0⟩ := by
  refine ⟨?_, ?_, ?_⟩
  · ext <;>
      simp [c4managed, Contact.init, Contact.set_wrench, Contact.wrench_at,
        blockDiag, M66.mulVec, M3.mulVec, M3.one, M3.zero, crossmat]
  · ext <;>
      simp [c4managed, Contact.init, Contact.set_wrench, wrenchAtSpec,
        blockDiag, M66.mulVec, M3.mulVec, M3.one, M3.zero, cross3]
  · intro hEq
    have hfx : (((c4managed : Contact ℝ).wrench_at ⟨0, 0, 0⟩).getD 0).force.x =
        ((wrenchAtSpec (c4managed : Contact ℝ) ⟨0, 0, 0⟩).getD 0).force.x :=
      congrArg (fun o => (Option.getD o 0).force.x) hEq
    simp [c4managed, Contact.init, Contact.set_wrench, Contact.wrench_at,
      wrenchAtSpec, blockDiag, M66.mulVec, M3.mulVec, M3.one, M3.zero,
      crossmat, cross3] at hfx

end ClaimC4

section ClaimC2

/-- C2, counterexample: for the two-contact set `S2set` (one supporting, one
managed with stored wrench `(0, 0, 1, 0, 0, 0)`), target wrench `0` at point
`0`, the vector `x2` satisfies the QP equality constraint built by
`find_supporting_wrenches`, yet the sum of the supporting contacts'
transported wrenches plus the managed contact's wrench transported to the
point is `(0, 0, 2, 0, 0, 0)`, not the target `0`: the managed offsets are
added to the right-hand side (`b = wrench + ext_wrench`), not subtracted
from the target as the claimed equation requires. -/
theorem C2_counterexample :
    ContactSet.eqConstraint
      ((S2set : ContactSet ℝ).buildQP (Real.sqrt 2) 0 ⟨0, 0, 0⟩ (1 / 100) 1
        (1 / 10000)) x2 ∧
    ContactSet.hstackMulVec
        (((S2set : ContactSet ℝ).supporting_contacts).map
          (fun c => c.compute_grasp_matrix ⟨0, 0, 0⟩)) x2 +
      (wrenchAtSpec (cMng : Contact ℝ) ⟨0, 0, 0⟩).getD 0 ≠ 0 ∧
    ContactSet.hstackMulVec
        (((S2set : ContactSet ℝ).supporting_contacts).map
          (fun c => c.compute_grasp_matrix ⟨0, 0, 0⟩)) x2 +
      (S2set : ContactSet ℝ).ext_wrench ⟨0, 0, 0⟩ ≠ 0 := by
  refine ⟨?_, ?_, ?_⟩
  · ext <;>
      simp [ContactSet.eqConstraint, ContactSet.buildQP, S2set,
        ContactSet.init, ContactSet.supporting_contacts, ContactSet.ext_wrench,
        ContactSet.hstackMulVec, ContactSet.hstackMulVec.toV6, x2, cSupp, cMng,
        Contact.init, Contact.set_wrench, Contact.wrench_at,
        Contact.compute_grasp_matrix, blockDiag, M66.mulVec, M3.mulVec,
        M3.one, M3.zero, M3.transpose, M3.neg, M3.hadamard, crossmat]
  · intro hEq
    have hz := congrArg (fun v : V6 ℝ => v.force.z) hEq
    norm_num [ContactSet.hstackMulVec, ContactSet.hstackMulVec.toV6, S2set,
      ContactSet.init, ContactSet.supporting_contacts, x2, cSupp, cMng,
      Contact.init, Contact.set_wrench, wrenchAtSpec, cross3, blockDiag,
      M66.mulVec, M3.mulVec, M3.one, M3.zero, M3.transpose, M3.neg,
      M3.hadamard, Contact.compute_grasp_matrix] at hz
  · intro hEq
    have hz := congrArg (fun v : V6 ℝ => v.force.z) hEq
    norm_num [ContactSet.hstackMulVec, ContactSet.hstackMulVec.toV6, S2set,
      ContactSet.init, ContactSet.supporting_contacts, ContactSet.ext_wrench,
      x2, cSupp, cMng, Contact.init, Contact.set_wrench, Contact.wrench_at,
      blockDiag, M66.mulVec, M3.mulVec, M3.one, M3.zero, M3.transpose,
      M3.neg, M3.hadamard, crossmat, Contact.compute_grasp_matrix] at hz

/-- C2, amended: the equality constraint of the QP solved by
`find_supporting_wrenches` requires the sum of the supporting contacts'
wrenches transported to the point (the stacked grasp matrices applied to the
variable vector) to equal the target wrench plus the sum of the managed
contacts' `wrench_at` offsets: managed wrenches are added to the right-hand
side, not folded into the left-hand sum. -/
theorem C2_amended (S : ContactSet ℝ) (w : V6 ℝ) (point : V3 ℝ)
    (fw cw yw : ℝ) (x : List ℝ) :
    (ContactSet.eqConstraint (S.buildQP (Real.sqrt 2) w point fw cw yw) x ↔
      ContactSet.hstackMulVec
          ((S.supporting_contacts).map
            (fun c => c.compute_grasp_matrix point)) x =
        w + S.ext_wrench point) ∧
    S.ext_wrench point =
      sumV6 ((S.contacts.filter
          (fun c => c.is_managed && c.wrench.isSome)).map
        (fun c => (c.wrench_at point).getD 0)) := by
  constructor
  · simp [ContactSet.eqConstraint, ContactSet.buildQP]
  · simpa [ContactSet.ext_wrench] using foldl_ext_wrench point S.contacts 0

end ClaimC2

section ClaimC8

/-- C8: infeasibility is surfaced explicitly.  When the QP solver reports no
solution, `find_supporting_wrenches` returns `None`; and when some inequality
offset stays non-positive even after the Chebyshev-center translation,
`compute_polygon_hull` raises (here: returns the explicit error carrying
`min(c)`) instead of producing a vertex list. -/
theorem C8_infeasibility_is_explicit :
    (∀ (S : ContactSet ℝ) (w : V6 ℝ) (point : V3 ℝ) (fw cw yw : ℝ)
        (solver : ContactSet.QP ℝ → Option (List ℝ)),
        solver (S.buildQP (Real.sqrt 2) w point fw cw yw) = none →
        S.find_supporting_wrenches (Real.sqrt 2) w point fw cw yw solver =
          none) ∧
    (∀ (cheb : List (V2 ℝ) → List ℝ → V2 ℝ)
        (inner : List (V2 ℝ) → List ℝ → List (V2 ℝ))
        (B : List (V2 ℝ)) (c : List ℝ),
        ¬ allPos c →
        ¬ allPos (List.zipWith (fun (bi : V2 ℝ) ci => ci - dot2 bi (cheb B c))
            B c) →
        compute_polygon_hull cheb inner B c =
          Except.error (listMin
            (List.zipWith (fun (bi : V2 ℝ) ci => ci - dot2 bi (cheb B c))
              B c))) := by
  constructor
  · intro S w point fw cw yw solver hnone
    simp [ContactSet.find_supporting_wrenches, hnone]
  · intro cheb inner B c h1 h2
    simp [compute_polygon_hull, h1, h2]

/-- Witness for C8: the constantly-`None` solver makes
`find_supporting_wrenches` return `None` on a concrete one-contact set, and
`compute_polygon_hull` returns the explicit error on the single infeasible
half-plane `x ≤ -1` with a Chebyshev stub returning the origin. -/
theorem C8_infeasibility_is_explicit_witness :
    ((fun _ : ContactSet.QP ℝ => (none : Option (List ℝ)))
        ((ContactSet.init [cSupp]).buildQP (Real.sqrt 2) 0 ⟨0, 0, 0⟩ 1 1 1) =
        none ∧
      ¬ allPos [(-1 : ℝ)] ∧
      ¬ allPos (List.zipWith
          (fun (bi : V2 ℝ) ci =>
            ci - dot2 bi ((fun _ _ => (⟨0, 0⟩ : V2 ℝ)) [(⟨1, 0⟩ : V2 ℝ)]
              [(-1 : ℝ)]))
          [(⟨1, 0⟩ : V2 ℝ)] [(-1 : ℝ)])) ∧
    (ContactSet.init [cSupp]).find_supporting_wrenches (Real.sqrt 2) 0
        ⟨0, 0, 0⟩ 1 1 1 (fun _ => none) = none ∧
    compute_polygon_hull (fun _ _ => (⟨0, 0⟩ : V2 ℝ)) (fun _ _ => [])
        [(⟨1, 0⟩ : V2 ℝ)] [(-1 : ℝ)] =
      Except.error (listMin
        (List.zipWith
          (fun (bi : V2 ℝ) ci =>
            ci - dot2 bi ((fun _ _ => (⟨0, 0⟩ : V2 ℝ)) [(⟨1, 0⟩ : V2 ℝ)]
              [(-1 : ℝ)]))
          [(⟨1, 0⟩ : V2 ℝ)] [(-1 : ℝ)])) := by
  have h1 : ¬ allPos [(-1 : ℝ)] := by norm_num [allPos]
  have h2 : ¬ allPos (List.zipWith
      (fun (bi : V2 ℝ) ci =>
        ci - dot2 bi ((fun _ _ => (⟨0, 0⟩ : V2 ℝ)) [(⟨1, 0⟩ : V2 ℝ)]
          [(-1 : ℝ)]))
      [(⟨1, 0⟩ : V2 ℝ)] [(-1 : ℝ)]) := by
    norm_num [allPos, dot2]
  exact ⟨⟨rfl, h1, h2⟩,
    C8_infeasibility_is_explicit.1 (ContactSet.init [cSupp]) 0 ⟨0, 0, 0⟩ 1 1 1
      (fun _ => none) rfl,
    C8_infeasibility_is_explicit.2 (fun _ _ => (⟨0, 0⟩ : V2 ℝ))
      (fun _ _ => []) [(⟨1, 0⟩ : V2 ℝ)] [(-1 : ℝ)] h1 h2⟩

end ClaimC8

section ClaimC9

/-- C9: whenever the solver returns a vector, `find_supporting_wrenches`
returns one entry per contact of the full set in insertion order, pairing
`self.contacts[i]` with the (Python-clamped) slice `w_all[6i : 6(i+1)]`; in
particular, when `w_all` has length `6 * (number of supporting contacts)`,
the entries of managed contacts beyond that range receive empty slices. -/
theorem C9_support_list_pairs_all_contacts (S : ContactSet ℝ) (w : V6 ℝ)
    (point : V3 ℝ) (fw cw yw : ℝ)
    (solver : ContactSet.QP ℝ → Option (List ℝ)) (w_all : List ℝ)
    (hsome : solver (S.buildQP (Real.sqrt 2) w point fw cw yw) = some w_all) :
    ∃ support,
      S.find_supporting_wrenches (Real.sqrt 2) w point fw cw yw solver =
        some support ∧
      support.length = S.contacts.length ∧
      (∀ i : Nat, support.get? i =
        (S.contacts.get? i).map (fun c => (c, ContactSet.slice6 i w_all))) ∧
      (w_all.length = 6 * S.supporting_contacts.length →
        ∀ i : Nat, S.supporting_contacts.length ≤ i →
          ContactSet.slice6 i w_all = []) := by
  refine ⟨ContactSet.enumSlices w_all 0 S.contacts, ?_, ?_, ?_, ?_⟩
  · simp [ContactSet.find_supporting_wrenches, hsome]
  · exact enumSlices_length w_all 0 S.contacts
  · intro i
    simpa using enumSlices_get w_all 0 S.contacts i
  · intro hlen i hi
    have hdrop : w_all.length ≤ 6 * i := by omega
    simp [ContactSet.slice6, List.drop_eq_nil_of_le hdrop]

/-- Witness for C9 on the set `S2set` (one supporting contact, one managed)
with a stub solver returning the 6-vector `l6`. -/
theorem C9_support_list_pairs_all_contacts_witness :
    ((fun _ : ContactSet.QP ℝ => some (l6 : List ℝ))
        ((S2set : ContactSet ℝ).buildQP (Real.sqrt 2) 0 ⟨0, 0, 0⟩ 1 1 1) =
        some l6) ∧
    (∃ support,
      (S2set : ContactSet ℝ).find_supporting_wrenches (Real.sqrt 2) 0
          ⟨0, 0, 0⟩ 1 1 1 (fun _ => some (l6 : List ℝ)) = some support ∧
      support.length = (S2set : ContactSet ℝ).contacts.length ∧
      (∀ i : Nat, support.get? i =
        ((S2set : ContactSet ℝ).contacts.get? i).map
          (fun c => (c, ContactSet.slice6 i (l6 : List ℝ)))) ∧
      ((l6 : List ℝ).length =
          6 * (S2set : ContactSet ℝ).supporting_contacts.length →
        ∀ i : Nat, (S2set : ContactSet ℝ).supporting_contacts.length ≤ i →
          ContactSet.slice6 i (l6 : List ℝ) = [])) :=
  ⟨rfl,
   C9_support_list_pairs_all_contacts S2set 0 ⟨0, 0, 0⟩ 1 1 1
     (fun _ => some (l6 : List ℝ)) l6 rfl⟩

end ClaimC9

section ClaimC7

/-- C7: for a contact whose orientation satisfies `R^T R = 1` (orthogonal
rotation matrix) and whose friction coefficient is non-negative, every column
`f` of `force_span` (each of the four friction-cone rays) satisfies
`force_inequalities . f ≤ 0` componentwise. -/
theorem C7_force_span_inside_force_cone (c : Contact ℝ)
    (hR : c.R.transpose.mul c.R = M3.one) (hf : 0 ≤ c.friction) :
    ∀ r ∈ c.force_inequalities (Real.sqrt 2),
      ∀ f ∈ c.force_span (Real.sqrt 2), dot3 r f ≤ 0 := by
  have hmu : 0 ≤ c.friction / Real.sqrt 2 :=
    div_nonneg hf (Real.sqrt_nonneg 2)
  intro r hr f hfm
  simp only [Contact.force_inequalities, Contact.force_span,
    Contact.force_rays, List.mem_cons, List.not_mem_nil, or_false] at hr hfm
  rcases hr with h | h | h | h <;> rcases hfm with g | g | g | g <;>
    subst h <;> subst g <;>
    rw [dot3_vecMul3, M3.mulVec_mulVec, hR, M3.one_mulVec] <;>
    simp only [dot3] <;> nlinarith [hmu]

/-- Witness for C7 on a concrete contact with identity orientation and zero
friction coefficient. -/
theorem C7_force_span_inside_force_cone_witness :
    ((cSupp : Contact ℝ).R.transpose.mul (cSupp : Contact ℝ).R = M3.one ∧
      (0 : ℝ) ≤ (cSupp : Contact ℝ).friction) ∧
    (∀ r ∈ (cSupp : Contact ℝ).force_inequalities (Real.sqrt 2),
      ∀ f ∈ (cSupp : Contact ℝ).force_span (Real.sqrt 2), dot3 r f ≤ 0) :=
  ⟨⟨by ext <;> simp [cSupp, Contact.init, M3.mul, M3.transpose, M3.one],
    by norm_num [cSupp, Contact.init]⟩,
   C7_force_span_inside_force_cone cSupp
     (by ext <;> simp [cSupp, Contact.init, M3.mul, M3.transpose, M3.one])
     (by norm_num [cSupp, Contact.init])⟩

end ClaimC7

section ClaimC6

/-- C6: the contact `c6rot (sqrt 2)` (shape `(1, 1)`, rotation 90 degrees
about z, position `(0, 0, 1)`, friction `sqrt 2`, hence `mu = 1 ≥ 0`) has
positive half-lengths, yet the sixth row of `wrench_inequalities` dotted
with the first column of `wrench_span` equals `1 > 0`: `wrench_inequalities`
multiplies the local cone by the (position-dependent, entrywise-product)
grasp matrix at the world origin, while `wrench_span` takes its generators
at the contact point, so the generators do not lie inside the cone the
inequality matrix describes. -/
theorem C6_wrench_span_violates_wrench_inequalities :
    0 < (c6rot (Real.sqrt 2) : Contact ℝ).shape.1 ∧
    0 < (c6rot (Real.sqrt 2) : Contact ℝ).shape.2 ∧
    0 ≤ (c6rot (Real.sqrt 2) : Contact ℝ).friction ∧
    ∃ r ∈ (c6rot (Real.sqrt 2) : Contact ℝ).wrench_inequalities (Real.sqrt 2),
      ∃ s ∈ (c6rot (Real.sqrt 2) : Contact ℝ).wrench_span (Real.sqrt 2),
        dot6 r s = 1 := by
  have hs2 : Real.sqrt 2 ≠ 0 := by positivity
  have hmu : Real.sqrt 2 / Real.sqrt 2 = 1 := div_self hs2
  refine ⟨by norm_num [c6rot, Contact.init],
    by norm_num [c6rot, Contact.init],
    by simp [c6rot, Contact.init, Real.sqrt_nonneg], ?_⟩
  have hF : (c6rot (Real.sqrt 2) : Contact ℝ).wrench_inequalities
      (Real.sqrt 2) =
      [⟨⟨0, -1, -1⟩, ⟨0, 0, 0⟩⟩, ⟨⟨0, 1, -1⟩, ⟨0, 0, 0⟩⟩,
       ⟨⟨1, 0, -1⟩, ⟨0, 0, 0⟩⟩, ⟨⟨-1, 0, -1⟩, ⟨0, 0, 0⟩⟩,
       ⟨⟨0, -1, -1⟩, ⟨0, -1, 0⟩⟩, ⟨⟨0, 1, -1⟩, ⟨0, 1, 0⟩⟩,
       ⟨⟨-1, 0, -1⟩, ⟨1, 0, 0⟩⟩, ⟨⟨1, 0, -1⟩, ⟨-1, 0, 0⟩⟩,
       ⟨⟨2, 0, -2⟩, ⟨-1, 1, -1⟩⟩, ⟨⟨-2, 0, -2⟩, ⟨1, 1, -1⟩⟩,
       ⟨⟨2, 0, -2⟩, ⟨-1, -1, -1⟩⟩, ⟨⟨-2, 0, -2⟩, ⟨1, -1, -1⟩⟩,
       ⟨⟨0, 2, -2⟩, ⟨-1, 1, 1⟩⟩, ⟨⟨0, 2, -2⟩, ⟨1, 1, 1⟩⟩,
       ⟨⟨0, -2, -2⟩, ⟨-1, -1, 1⟩⟩, ⟨⟨0, -2, -2⟩, ⟨1, -1, 1⟩⟩] := by
    norm_num [Contact.wrench_inequalities, Contact.local_cone, c6rot,
      Contact.init, hmu, Contact.compute_grasp_matrix, rotz90, M3.transpose,
      M3.neg, M3.hadamard, M3.zero, vecMul6, vecMul3]
  have hS : (c6rot (Real.sqrt 2) : Contact ℝ).wrench_span (Real.sqrt 2) =
      [⟨⟨-1, 1, 1⟩, ⟨1, 1, 0⟩⟩, ⟨⟨1, 1, 1⟩, ⟨1, 1, -2⟩⟩,
       ⟨⟨-1, -1, 1⟩, ⟨1, 1, 2⟩⟩, ⟨⟨1, -1, 1⟩, ⟨1, 1, 0⟩⟩,
       ⟨⟨-1, 1, 1⟩, ⟨1, -1, 2⟩⟩, ⟨⟨1, 1, 1⟩, ⟨1, -1, 0⟩⟩,
       ⟨⟨-1, -1, 1⟩, ⟨1, -1, 0⟩⟩, ⟨⟨1, -1, 1⟩, ⟨1, -1, -2⟩⟩,
       ⟨⟨-1, 1, 1⟩, ⟨-1, -1, 0⟩⟩, ⟨⟨1, 1, 1⟩, ⟨-1, -1, 2⟩⟩,
       ⟨⟨-1, -1, 1⟩, ⟨-1, -1, -2⟩⟩, ⟨⟨1, -1, 1⟩, ⟨-1, -1, 0⟩⟩,
       ⟨⟨-1, 1, 1⟩, ⟨-1, 1, -2⟩⟩, ⟨⟨1, 1, 1⟩, ⟨-1, 1, 0⟩⟩,
       ⟨⟨-1, -1, 1⟩, ⟨-1, 1, 0⟩⟩, ⟨⟨1, -1, 1⟩, ⟨-1, 1, 2⟩⟩] := by
    norm_num [Contact.wrench_span, Contact.vertices,
      Contact.get_scaled_contact_area, Contact.force_span, Contact.force_rays,
      c6rot, Contact.init, hmu, rotz90, crossmat, M3.mulVec]
  rw [hF, hS]
  refine ⟨⟨⟨0, 1, -1⟩, ⟨0, 1, 0⟩⟩, by simp, ⟨⟨-1, 1, 1⟩, ⟨1, 1, 0⟩⟩, by simp,
    ?_⟩
  norm_num [dot6, dot3]

end ClaimC6
